import Mathlib

/-!
# Verification of the ChatGPT-Line-Bot command router and conversation memory

Shallow embedding of `src/main.py` (the LINE webhook handlers
`handle_text_message` and `handle_audio_message`) together with the
conversation-memory component the handlers mutate.  Python strings are
sequences of Unicode code points; we model them as Lean `String` but with
the Python operations (`startswith`, slicing, `strip`) defined directly on
the underlying character list, which matches Python's code-point
semantics.  Downstream services (`OpenAIModel`, `Youtube`, `Website`,
the summarization readers) are opaque capability calls; we model them as a
`Gateway` record of pure functions returning the `(ok, payload, error)`
triples the handlers destructure.  Exceptions raised inside the `try`
blocks are modelled with `Except`, carrying along the memory state at the
time of the raise (in Python the memory object is global, so mutations
before a raise persist into the `except` handler).
-/

set_option autoImplicit false

namespace LineBot

/-- Python `s.startswith(p)`: code-point prefix test (`str.startswith`). -/
def pyStartsWith (s p : String) : Bool :=
  p.data.isPrefixOf s.data

/-- Python `s[n:]`: drop the first `n` code points. -/
def pySlice (s : String) (n : Nat) : String :=
  ⟨s.data.drop n⟩

/-- Python `s.strip()`: remove leading and trailing whitespace code points. -/
def pyStrip (s : String) : String :=
  ⟨((s.data.dropWhile Char.isWhitespace).reverse.dropWhile Char.isWhitespace).reverse⟩

/-- One conversation entry: `{'role': ..., 'content': ...}`. -/
structure Entry where
  role : String
  content : String
deriving DecidableEq, Repr

/-- Per-user record held by the memory component: the user's system message
and the rolling history of user/assistant entries. -/
structure UserRecord where
  systemMessage : String
  history : List Entry
deriving DecidableEq, Repr

/-- Association-list lookup of a user's record. -/
def lookupRecord (store : List (String × UserRecord)) (uid : String) :
    Option UserRecord :=
  match store with
  | [] => none
  | (k, r) :: rest => if k = uid then some r else lookupRecord rest uid

/-- Association-list update/insert of a user's record. -/
def setRecord (store : List (String × UserRecord)) (uid : String)
    (r : UserRecord) : List (String × UserRecord) :=
  match store with
  | [] => [(uid, r)]
  | (k, r0) :: rest =>
      if k = uid then (uid, r) :: rest else (k, r0) :: setRecord rest uid r

/-- Modelled from the spec: the `Memory` component of `src/memory.py`,
which is not part of the provided sources.  Per §4.2 it keeps a per-user
bounded message log with a configurable default system message and a
`max_turns` bound (`memory_message_count` in `main.py`). -/
structure Memory where
  defaultSystem : String
  maxTurns : Nat
  store : List (String × UserRecord)
deriving DecidableEq, Repr

namespace Memory

/-- Modelled from the spec: unseen users are auto-created with defaults
(empty history, process-configured default system message). -/
def getRecord (m : Memory) (uid : String) : UserRecord :=
  (lookupRecord m.store uid).getD ⟨m.defaultSystem, []⟩

/-- The eviction loop with explicit fuel (the loop drops two entries per
iteration, so `h.length` iterations always suffice). -/
def evictGo (bound : Nat) : Nat → List Entry → List Entry
  | 0, l => l
  | fuel + 1, l => if l.length ≤ bound then l else evictGo bound fuel (l.drop 2)

/-- Sliding-window eviction.  Modelled from the spec (§3, §4.2): once the
history exceeds `2 * max_turns` non-system entries, the oldest
user/assistant pair is dropped (FIFO on pairs) until the bound holds. -/
def evictOldest (bound : Nat) (h : List Entry) : List Entry :=
  evictGo bound h.length h

/-- Modelled from the spec: `append(user_id, role, content)` adds an entry
and enforces the sliding-window invariant. -/
def append (m : Memory) (uid role content : String) : Memory :=
  let r := m.getRecord uid
  { m with
    store := setRecord m.store uid
      { r with
        history := evictOldest (2 * m.maxTurns) (r.history ++ [⟨role, content⟩]) } }

/-- Modelled from the spec: `get(user_id)` returns the system message
followed by the history. -/
def get (m : Memory) (uid : String) : List Entry :=
  ⟨"system", (m.getRecord uid).systemMessage⟩ :: (m.getRecord uid).history

/-- Modelled from the spec: `change_system_message(user_id, text)` upserts
the system message without touching history. -/
def changeSystemMessage (m : Memory) (uid text : String) : Memory :=
  { m with store := setRecord m.store uid { m.getRecord uid with systemMessage := text } }

/-- Modelled from the spec: `remove(user_id)` clears the history (not the
whole record) for that user. -/
def remove (m : Memory) (uid : String) : Memory :=
  { m with store := setRecord m.store uid { m.getRecord uid with history := [] } }

end Memory

/-- A chat-style capability response: the message object whose `role` and
`content` are extracted by `get_role_and_content`. -/
structure ChatResponse where
  role : String
  content : String
deriving DecidableEq, Repr

/-- Modelled from the spec: `get_role_and_content` of `src/utils.py` (not in
the provided sources) extracts the `(role, content)` pair from a chat-style
capability response. -/
def get_role_and_content (r : ChatResponse) : String × String :=
  (r.role, r.content)

/-- The downstream services used by the handlers, as pure oracles returning
the `(is_successful, response, error_message)` triples the code
destructures.  `image_generations`'s payload stands for
`response['data'][0]['url']`; `audio_transcriptions`'s payload stands for
`response['text']`.  The two summarization readers are constructed with a
model engine string, so the oracle takes the engine as second argument. -/
structure Gateway where
  image_generations : String → Bool × String × String
  chat_completions : List Entry → String → Bool × ChatResponse × String
  audio_transcriptions : String → String → Bool × String × String
  get_url_from_text : String → Option String
  retrieve_video_id : String → Option String
  get_transcript_chunks : String → Bool × List String × String
  youtube_summarize : List String → String → Bool × ChatResponse × String
  website_summarize : List String → String → Bool × ChatResponse × String
  get_content_from_url : String → List String

/-- Environment configuration read by `handle_text_message`:
`os.getenv('OPENAI_MODEL_ENGINE')`. -/
structure Config where
  modelEngine : String
deriving DecidableEq, Repr

/-- An outgoing LINE message: `TextSendMessage(text)` or
`ImageSendMessage(original_content_url, preview_image_url)`. -/
inductive OutMsg where
  | text : String → OutMsg
  | image : (originalContentUrl : String) → (previewImageUrl : String) → OutMsg
deriving DecidableEq, Repr

/-- The static help text returned for `/指令說明`. -/
def helpText : String :=
  "指令：\n/系統訊息 + Prompt\n👉 Prompt 可以命令機器人扮演某個角色，例如：請你扮演擅長做總結的人\n\n/清除\n👉 當前每一次都會紀錄最後兩筆歷史紀錄，這個指令能夠清除歷史訊息\n\n/圖像 + Prompt\n👉 會調用 DALL∙E 2 Model，以文字生成圖像\n\n/GPT + Prompt\n👉 調用 ChatGPT 以文字回覆\n\n語音輸入\n👉 會調用 Whisper 模型，先將語音轉換成文字，再調用 ChatGPT 以文字回覆"

/-- The supported command list
`commands = ['/指令說明', '/系統訊息', '/清除', '/圖像', '/GPT']`. -/
def commands : List String :=
  ["/指令說明", "/系統訊息", "/清除", "/圖像", "/GPT"]

/-- The `try` body of `handle_text_message` (`src/main.py` lines 60-127).
`Except.error (e, mem)` models `raise Exception(e)` with the global memory
in state `mem` at that point; `Except.ok none` models the bare `return`
taken when the message matches no command; `Except.ok (some (msg, mem))`
models reaching the reply with message `msg` and memory `mem`.  The final
`else` of the `if/elif` chain is unreachable: the `any` guard holds exactly
when one of the five chain conditions holds. -/
def handleTextBody (cfg : Config) (gw : Gateway) (mem : Memory)
    (uid rawText : String) : Except (String × Memory) (Option (OutMsg × Memory)) :=
  let text := pyStrip rawText
  if commands.any (fun cmd => pyStartsWith text cmd) then
    if pyStartsWith text "/指令說明" then
      .ok (some (.text helpText, mem))
    else if pyStartsWith text "/系統訊息" then
      let mem := mem.changeSystemMessage uid (pyStrip (pySlice text 5))
      .ok (some (.text "輸入成功", mem))
    else if pyStartsWith text "/清除" then
      let mem := mem.remove uid
      .ok (some (.text "歷史訊息清除成功", mem))
    else if pyStartsWith text "/圖像" then
      let prompt := pyStrip (pySlice text 3)
      let mem := mem.append uid "user" prompt
      let (ok, url, errorMessage) := gw.image_generations prompt
      if !ok then .error (errorMessage, mem)
      else
        let msg := OutMsg.image url url
        let mem := mem.append uid "assistant" url
        .ok (some (msg, mem))
    else if pyStartsWith text "/GPT" then
      let prompt := pyStrip (pySlice text 4)
      if prompt = "" then
        .ok (some (.text "請在 /GPT 指令後提供內容。", mem))
      else
        let mem := mem.append uid "user" prompt
        match gw.get_url_from_text prompt with
        | some url =>
          match gw.retrieve_video_id prompt with
          | some videoId =>
            let (ok, chunks, errorMessage) := gw.get_transcript_chunks videoId
            if !ok then .error (errorMessage, mem)
            else
              let (ok, response, errorMessage) :=
                gw.youtube_summarize chunks cfg.modelEngine
              if !ok then .error (errorMessage, mem)
              else
                let (role, response) := get_role_and_content response
                let msg := OutMsg.text response
                let mem := mem.append uid role response
                .ok (some (msg, mem))
          | none =>
            let chunks := gw.get_content_from_url url
            if chunks.length = 0 then .error ("無法撈取此網站文字", mem)
            else
              let (ok, response, errorMessage) :=
                gw.website_summarize chunks cfg.modelEngine
              if !ok then .error (errorMessage, mem)
              else
                let (role, response) := get_role_and_content response
                let msg := OutMsg.text response
                let mem := mem.append uid role response
                .ok (some (msg, mem))
        | none =>
          let (ok, response, errorMessage) :=
            gw.chat_completions (mem.get uid) cfg.modelEngine
          if !ok then .error (errorMessage, mem)
          else
            let (role, response) := get_role_and_content response
            let msg := OutMsg.text response
            let mem := mem.append uid role response
            .ok (some (msg, mem))
    else
      .ok none
  else
    .ok none

/-- The handler `handle_text_message` (`src/main.py` lines 54-137): run the `try` body;
on an exception clear the user's memory and classify the error text by its
two recognized prefixes; reply with the resulting message (`none` models
the no-reply `return` path). -/
def handle_text_message (cfg : Config) (gw : Gateway) (mem : Memory)
    (uid rawText : String) : Option OutMsg × Memory :=
  match handleTextBody cfg gw mem uid rawText with
  | .ok none => (none, mem)
  | .ok (some (msg, mem')) => (some msg, mem')
  | .error (e, mem') =>
      let mem'' := mem'.remove uid
      if pyStartsWith e "Incorrect API key provided" then
        (some (.text "OpenAI API Key 有誤，請檢查配置。"), mem'')
      else if pyStartsWith e "That model is currently overloaded with other requests." then
        (some (.text "已超過負荷，請稍後再試"), mem'')
      else
        (some (.text e), mem'')

/-- The `try` body of `handle_audio_message` (`src/main.py` lines 149-159):
transcribe the downloaded audio with the fixed `'whisper-1'` model, append
the transcript as a user turn, run a chat completion over the user's memory
with the fixed `'gpt-3.5-turbo'` model, append the assistant turn. -/
def handleAudioBody (gw : Gateway) (mem : Memory) (uid audioPath : String) :
    Except (String × Memory) (OutMsg × Memory) :=
  let (ok, transcript, errorMessage) := gw.audio_transcriptions audioPath "whisper-1"
  if !ok then .error (errorMessage, mem)
  else
    let mem := mem.append uid "user" transcript
    let (ok, response, errorMessage) := gw.chat_completions (mem.get uid) "gpt-3.5-turbo"
    if !ok then .error (errorMessage, mem)
    else
      let (role, response) := get_role_and_content response
      let mem := mem.append uid role response
      .ok (OutMsg.text response, mem)

/-- The handler `handle_audio_message` (`src/main.py` lines 140-167): run the body; on
an exception clear the user's memory and reply with the auth message when
the error text has the API-key prefix, otherwise with the raw error text
(this handler has no overloaded-model branch). -/
def handle_audio_message (gw : Gateway) (mem : Memory)
    (uid audioPath : String) : Option OutMsg × Memory :=
  match handleAudioBody gw mem uid audioPath with
  | .ok (msg, mem') => (some msg, mem')
  | .error (e, mem') =>
      let mem'' := mem'.remove uid
      if pyStartsWith e "Incorrect API key provided" then
        (some (.text "OpenAI API Key 有誤，請檢查配置。"), mem'')
      else
        (some (.text e), mem'')

/-! ## Concrete fixtures used by witnesses and counterexamples -/

/-- A concrete configuration whose engine differs from the fixed strings in
the audio handler. -/
def cfgW : Config := ⟨"my-engine"⟩

/-- A fresh memory: default system message, `memory_message_count = 2` as in
`main.py`, no users yet. -/
def memW : Memory := ⟨"default-sys", 2, []⟩

/-- A gateway where every capability succeeds; the chat and summarization
capabilities echo the model engine they were invoked with, making the
engine observable in the reply. -/
def gwW : Gateway where
  image_generations := fun _ => (true, "http://img.example/a.png", "")
  chat_completions := fun _ engine => (true, ⟨"assistant", engine⟩, "")
  audio_transcriptions := fun _ _ => (true, "hello there", "")
  get_url_from_text := fun _ => none
  retrieve_video_id := fun _ => none
  get_transcript_chunks := fun _ => (true, ["t"], "")
  youtube_summarize := fun _ engine => (true, ⟨"assistant", engine⟩, "")
  website_summarize := fun _ engine => (true, ⟨"assistant", engine⟩, "")
  get_content_from_url := fun _ => ["chunk"]

/-- Like `gwW` but image generation fails with error text `boom`. -/
def gwFailImg : Gateway :=
  { gwW with image_generations := fun _ => (false, "", "boom") }

/-- Like `gwW` but audio transcription fails with the overloaded-model
error text. -/
def gwOverAudio : Gateway :=
  { gwW with
    audio_transcriptions := fun _ _ =>
      (false, "", "That model is currently overloaded with other requests.") }

/-- Like `gwW` but the prompt is detected as a generic (non-video) URL and
content extraction yields zero chunks. -/
def gwWebEmpty : Gateway :=
  { gwW with
    get_url_from_text := fun _ => some "https://example.com/article",
    get_content_from_url := fun _ => [] }

/-- Like `gwW` but the prompt is detected as a generic (non-video) URL with
one extracted chunk. -/
def gwWebEcho : Gateway :=
  { gwW with get_url_from_text := fun _ => some "https://example.com/article" }

/-- Like `gwW` but the prompt is detected as a video URL. -/
def gwTube : Gateway :=
  { gwW with
    get_url_from_text := fun _ => some "https://youtu.be/x",
    retrieve_video_id := fun _ => some "vid" }

/-! ## Helper lemmas -/

theorem lookupRecord_setRecord_same (store : List (String × UserRecord))
    (uid : String) (r : UserRecord) :
    lookupRecord (setRecord store uid r) uid = some r := by
  induction store with
  | nil => simp [setRecord, lookupRecord]
  | cons kv rest ih =>
    obtain ⟨k, r0⟩ := kv
    by_cases hk : k = uid <;> simp [setRecord, lookupRecord, hk, ih]

theorem Memory.getRecord_append (m : Memory) (uid role content : String) :
    (m.append uid role content).getRecord uid =
      { m.getRecord uid with
        history := Memory.evictOldest (2 * m.maxTurns)
          ((m.getRecord uid).history ++ [⟨role, content⟩]) } := by
  simp [Memory.append, Memory.getRecord, lookupRecord_setRecord_same]

theorem Memory.getRecord_remove (m : Memory) (uid : String) :
    (m.remove uid).getRecord uid = { m.getRecord uid with history := [] } := by
  simp [Memory.remove, Memory.getRecord, lookupRecord_setRecord_same]

theorem Memory.getRecord_changeSystemMessage (m : Memory) (uid text : String) :
    (m.changeSystemMessage uid text).getRecord uid =
      { m.getRecord uid with systemMessage := text } := by
  simp [Memory.changeSystemMessage, Memory.getRecord, lookupRecord_setRecord_same]

theorem Memory.maxTurns_append (m : Memory) (uid role content : String) :
    (m.append uid role content).maxTurns = m.maxTurns := rfl

/-- The eviction loop's result does not depend on the fuel, as long as the
fuel is at least the list length. -/
theorem evictGo_fuel (b : Nat) (fuel : Nat) : ∀ (l : List Entry),
    l.length ≤ fuel → Memory.evictGo b fuel l = Memory.evictGo b l.length l := by
  induction fuel using Nat.strong_induction_on with
  | _ fuel ih =>
    intro l hl
    match fuel, hl with
    | 0, hl =>
      have h0 : l.length = 0 := Nat.le_zero.mp hl
      rw [h0]
    | f + 1, hl =>
      by_cases hle : l.length ≤ b
      · have h1 : Memory.evictGo b (f + 1) l = l := by simp [Memory.evictGo, hle]
        have h2 : Memory.evictGo b l.length l = l := by
          cases hn : l.length with
          | zero => rfl
          | succ n => simp [Memory.evictGo, hle]
        rw [h1, h2]
      · obtain ⟨n, hn⟩ : ∃ n, l.length = n + 1 := ⟨l.length - 1, by omega⟩
        have hd1 : (l.drop 2).length ≤ f := by simp only [List.length_drop]; omega
        have hd2 : (l.drop 2).length ≤ n := by simp only [List.length_drop]; omega
        have h1 : Memory.evictGo b (f + 1) l = Memory.evictGo b f (l.drop 2) := by
          simp [Memory.evictGo, hle]
        have h2 : Memory.evictGo b l.length l = Memory.evictGo b n (l.drop 2) := by
          rw [hn]; simp [Memory.evictGo, hle]
        rw [h1, h2, ih f (by omega) _ hd1, ih n (by omega) _ hd2]

/-- Unfolding equation of the sliding-window eviction loop. -/
theorem evictOldest_eq (b : Nat) (h : List Entry) :
    Memory.evictOldest b h =
      if h.length ≤ b then h else Memory.evictOldest b (h.drop 2) := by
  unfold Memory.evictOldest
  by_cases hle : h.length ≤ b
  · rw [if_pos hle]
    cases hn : h.length with
    | zero => rfl
    | succ n => simp [Memory.evictGo, hle]
  · rw [if_neg hle]
    obtain ⟨n, hn⟩ : ∃ n, h.length = n + 1 := ⟨h.length - 1, by omega⟩
    rw [hn]
    simp only [Memory.evictGo, if_neg hle]
    apply evictGo_fuel
    simp only [List.length_drop]
    omega

theorem evictOldest_of_le {b : Nat} {h : List Entry} (hle : h.length ≤ b) :
    Memory.evictOldest b h = h := by
  rw [evictOldest_eq, if_pos hle]

/-- The eviction loop always restores the window bound. -/
theorem evictGo_length_le (b : Nat) : ∀ (fuel : Nat) (l : List Entry),
    l.length ≤ fuel → (Memory.evictGo b fuel l).length ≤ b := by
  intro fuel
  induction fuel with
  | zero =>
    intro l hl
    exact Nat.le_trans hl (Nat.zero_le b)
  | succ fuel ih =>
    intro l hl
    by_cases hle : l.length ≤ b
    · simp only [Memory.evictGo, if_pos hle]
      exact hle
    · simp only [Memory.evictGo, if_neg hle]
      exact ih _ (by simp only [List.length_drop]; omega)

theorem evictOldest_length_le (b : Nat) (h : List Entry) :
    (Memory.evictOldest b h).length ≤ b :=
  evictGo_length_le b h.length h (Nat.le_refl _)

theorem pyStartsWith_data {s p : String} (h : pyStartsWith s p = true) :
    ∃ rest, s.data = p.data ++ rest := by
  have h' : p.data <+: s.data := by simpa [pyStartsWith] using h
  obtain ⟨rest, hr⟩ := h'
  exact ⟨rest, hr.symm⟩

theorem pyStartsWith_false_of_mismatch {s q : String} {x y z : Char}
    {qtl rest : List Char}
    (hs : s.data = x :: y :: rest) (hq : q.data = x :: z :: qtl)
    (hzy : (z == y) = false) : pyStartsWith s q = false := by
  simp only [pyStartsWith, hs, hq]
  simp [List.isPrefixOf_cons₂, hzy]

/-- The five command prefixes all start with `'/'` and differ pairwise at
their second character, so a string starting with one of them cannot start
with another. -/
theorem pyStartsWith_false_of_startsWith {s p q : String} {x y z : Char}
    {ptl qtl : List Char}
    (h : pyStartsWith s p = true) (hp : p.data = x :: y :: ptl)
    (hq : q.data = x :: z :: qtl) (hzy : (z == y) = false) :
    pyStartsWith s q = false := by
  obtain ⟨rest, hd⟩ := pyStartsWith_data h
  rw [hp] at hd
  exact pyStartsWith_false_of_mismatch (by simpa using hd) hq hzy

/-- A single `append` always leaves the stored history within the window
bound. -/
theorem append_window_le (m : Memory) (uid role content : String) :
    ((m.append uid role content).getRecord uid).history.length ≤ 2 * m.maxTurns := by
  rw [Memory.getRecord_append]
  exact evictOldest_length_le _ _

/-- Any sequence of `append` calls preserves the window bound. -/
theorem foldl_append_window (uid : String) (ops : List (String × String)) (m : Memory)
    (hinv : (m.getRecord uid).history.length ≤ 2 * m.maxTurns) :
    (((ops.foldl (fun acc rc => acc.append uid rc.1 rc.2) m)).getRecord uid).history.length
      ≤ 2 * m.maxTurns := by
  induction ops generalizing m with
  | nil => simpa using hinv
  | cons op rest ih =>
    have h1 := append_window_le m uid op.1 op.2
    exact ih (m.append uid op.1 op.2) h1

/-! ## Claims -/

/-- Claim C1: whenever the `try` body of `handle_text_message` raises (any
downstream-capability or content-extraction failure, modelled by the body
returning `Except.error`), the handler replies with a text message, the
final memory is the memory at the raise with the acting user's record
cleared, and that user's stored history is empty afterwards — so no
orphaned user-only entry persists past a failed command. -/
theorem C1_failure_clears (cfg : Config) (gw : Gateway) (mem : Memory)
    (uid raw e : String) (memAtRaise : Memory)
    (h : handleTextBody cfg gw mem uid raw = .error (e, memAtRaise)) :
    (∃ s, (handle_text_message cfg gw mem uid raw).1 = some (OutMsg.text s))
    ∧ (handle_text_message cfg gw mem uid raw).2 = memAtRaise.remove uid
    ∧ ((handle_text_message cfg gw mem uid raw).2.getRecord uid).history = [] := by
  simp only [handle_text_message, h]
  by_cases h1 : pyStartsWith e "Incorrect API key provided" = true <;>
    by_cases h2 : pyStartsWith e "That model is currently overloaded with other requests." = true <;>
    simp [h1, h2, Memory.getRecord_remove]

/-- Witness for C1: a concrete failing `/圖像` command. -/
theorem C1_witness :
    (∃ s, (handle_text_message cfgW gwFailImg memW "u" "/圖像 cat").1 = some (OutMsg.text s))
    ∧ (handle_text_message cfgW gwFailImg memW "u" "/圖像 cat").2
        = (memW.append "u" "user" "cat").remove "u"
    ∧ ((handle_text_message cfgW gwFailImg memW "u" "/圖像 cat").2.getRecord "u").history = [] :=
  C1_failure_clears cfgW gwFailImg memW "u" "/圖像 cat" "boom"
    (memW.append "u" "user" "cat") (by rfl)

/-- Claim C2: starting from any state within the window bound, any sequence
of `append` calls leaves at most `2 * max_turns` non-system entries; the
materialized sequence always has the system message as entry zero; and an
`append` to a full window evicts exactly the oldest user/assistant pair
(FIFO on pairs, not individual entries). -/
theorem C2_sliding_window (m : Memory) (uid : String) (ops : List (String × String))
    (hinv : (m.getRecord uid).history.length ≤ 2 * m.maxTurns) :
    (((ops.foldl (fun acc rc => acc.append uid rc.1 rc.2) m)).getRecord uid).history.length
        ≤ 2 * m.maxTurns
    ∧ ((ops.foldl (fun acc rc => acc.append uid rc.1 rc.2) m).get uid).head?
        = some ⟨"system",
            ((ops.foldl (fun acc rc => acc.append uid rc.1 rc.2) m).getRecord uid).systemMessage⟩
    ∧ (∀ role content, (m.getRecord uid).history.length = 2 * m.maxTurns →
        2 ≤ 2 * m.maxTurns →
        ((m.append uid role content).getRecord uid).history
          = (m.getRecord uid).history.drop 2 ++ [⟨role, content⟩]) := by
  refine ⟨foldl_append_window uid ops m hinv, by simp [Memory.get], ?_⟩
  intro role content hfull hb
  rw [Memory.getRecord_append, evictOldest_eq]
  have hlen : ((m.getRecord uid).history ++ [Entry.mk role content]).length
      = 2 * m.maxTurns + 1 := by simp [hfull]
  rw [if_neg (by omega)]
  rw [List.drop_append_eq_append_drop]
  have h2 : (2 : Nat) - (m.getRecord uid).history.length = 0 := by omega
  rw [h2]
  simp only [List.drop_zero]
  apply evictOldest_of_le
  simp
  omega

/-- Witness for C2: three appends from a fresh memory with `max_turns = 2`. -/
theorem C2_witness :
    ((([("user", "a"), ("assistant", "b"), ("user", "c")] : List (String × String)).foldl
        (fun acc rc => acc.append "u" rc.1 rc.2) memW).getRecord "u").history.length
        ≤ 2 * memW.maxTurns
    ∧ ((([("user", "a"), ("assistant", "b"), ("user", "c")] : List (String × String)).foldl
        (fun acc rc => acc.append "u" rc.1 rc.2) memW).get "u").head?
        = some ⟨"system",
            ((([("user", "a"), ("assistant", "b"), ("user", "c")] : List (String × String)).foldl
              (fun acc rc => acc.append "u" rc.1 rc.2) memW).getRecord "u").systemMessage⟩
    ∧ (∀ role content, (memW.getRecord "u").history.length = 2 * memW.maxTurns →
        2 ≤ 2 * memW.maxTurns →
        ((memW.append "u" role content).getRecord "u").history
          = (memW.getRecord "u").history.drop 2 ++ [⟨role, content⟩]) :=
  C2_sliding_window memW "u" [("user", "a"), ("assistant", "b"), ("user", "c")] (by decide)

/-- Claim C3: any trimmed input starting with the `/清除` prefix is handled
by the clear command (never by a later-priority command such as chat), and
input matching no command prefix produces no reply and no state change, on
the first and on every repeated delivery. -/
theorem C3_router_priority (cfg : Config) (gw : Gateway) (mem : Memory) (uid raw : String) :
    (pyStartsWith (pyStrip raw) "/清除" = true →
       handle_text_message cfg gw mem uid raw
         = (some (OutMsg.text "歷史訊息清除成功"), mem.remove uid))
    ∧ (commands.all (fun cmd => !(pyStartsWith (pyStrip raw) cmd)) = true →
       handle_text_message cfg gw mem uid raw = (none, mem)
       ∧ handle_text_message cfg gw (handle_text_message cfg gw mem uid raw).2 uid raw
           = (none, mem)) := by
  constructor
  · intro hstart
    have h1 : pyStartsWith (pyStrip raw) "/指令說明" = false :=
      pyStartsWith_false_of_startsWith hstart rfl rfl (by decide)
    have h2 : pyStartsWith (pyStrip raw) "/系統訊息" = false :=
      pyStartsWith_false_of_startsWith hstart rfl rfl (by decide)
    have hany : commands.any (fun cmd => pyStartsWith (pyStrip raw) cmd) = true := by
      simp [commands, hstart]
    simp [handle_text_message, handleTextBody, hany, h1, h2, hstart]
  · intro hall
    simp only [commands, List.all_cons, List.all_nil, Bool.and_eq_true,
      Bool.not_eq_true'] at hall
    obtain ⟨ha, hb, hc, hd, he, -⟩ := hall
    have hnone : handle_text_message cfg gw mem uid raw = (none, mem) := by
      have hany : commands.any (fun cmd => pyStartsWith (pyStrip raw) cmd) = false := by
        simp [commands, ha, hb, hc, hd, he]
      simp [handle_text_message, handleTextBody, hany]
    refine ⟨hnone, ?_⟩
    rw [hnone]
    exact hnone

/-- Witness for C3: `/清除 extra text` is handled by clear; `hello` is a
no-op twice. -/
theorem C3_witness :
    handle_text_message cfgW gwW memW "u" "/清除 extra text"
      = (some (OutMsg.text "歷史訊息清除成功"), memW.remove "u")
    ∧ (handle_text_message cfgW gwW memW "u" "hello" = (none, memW)
       ∧ handle_text_message cfgW gwW (handle_text_message cfgW gwW memW "u" "hello").2 "u" "hello"
           = (none, memW)) :=
  ⟨(C3_router_priority cfgW gwW memW "u" "/清除 extra text").1 (by decide),
   (C3_router_priority cfgW gwW memW "u" "hello").2 (by decide)⟩

/-- Counterexample to C4 as stated: in the audio handler, a failure whose
error text is exactly the overloaded-model message is passed through
verbatim, not mapped to the distinct overloaded reply `已超過負荷，請稍後再試`. -/
theorem C4_counterexample :
    (handle_audio_message gwOverAudio memW "u" "a.m4a").1
      = some (OutMsg.text "That model is currently overloaded with other requests.")
    ∧ ¬ (handle_audio_message gwOverAudio memW "u" "a.m4a").1
        = some (OutMsg.text "已超過負荷，請稍後再試") := by
  decide

/-- Claim C4 (amended): for every failing command, the text handler maps the
`Incorrect API key provided` prefix to the auth reply and the overloaded
prefix to the overloaded reply, passing any other error text through
verbatim; the audio handler maps only the auth prefix and passes every
other error text (including the overloaded message) through verbatim; in
each case the user's history is cleared. -/
theorem C4_error_classification (cfg : Config) (gw gw₂ : Gateway)
    (mem mem₂ : Memory) (uid uid₂ raw path e e₂ : String)
    (memR memR₂ : Memory)
    (h : handleTextBody cfg gw mem uid raw = .error (e, memR))
    (h₂ : handleAudioBody gw₂ mem₂ uid₂ path = .error (e₂, memR₂)) :
    (handle_text_message cfg gw mem uid raw).1
      = some (OutMsg.text
          (if pyStartsWith e "Incorrect API key provided" = true then
            "OpenAI API Key 有誤，請檢查配置。"
           else if pyStartsWith e "That model is currently overloaded with other requests." = true then
            "已超過負荷，請稍後再試"
           else e))
    ∧ ((handle_text_message cfg gw mem uid raw).2.getRecord uid).history = []
    ∧ (handle_audio_message gw₂ mem₂ uid₂ path).1
      = some (OutMsg.text
          (if pyStartsWith e₂ "Incorrect API key provided" = true then
            "OpenAI API Key 有誤，請檢查配置。"
           else e₂))
    ∧ ((handle_audio_message gw₂ mem₂ uid₂ path).2.getRecord uid₂).history = [] := by
  simp only [handle_text_message, handle_audio_message, h, h₂]
  by_cases ha1 : pyStartsWith e "Incorrect API key provided" = true <;>
    by_cases ha2 : pyStartsWith e "That model is currently overloaded with other requests." = true <;>
    by_cases hb1 : pyStartsWith e₂ "Incorrect API key provided" = true <;>
    simp [ha1, ha2, hb1, Memory.getRecord_remove]

/-- Witness for C4 (amended): a failing image command and a failing audio
transcription. -/
theorem C4_witness :
    ((handle_text_message cfgW gwFailImg memW "u" "/圖像 cat").1
      = some (OutMsg.text
          (if pyStartsWith "boom" "Incorrect API key provided" = true then
            "OpenAI API Key 有誤，請檢查配置。"
           else if pyStartsWith "boom" "That model is currently overloaded with other requests." = true then
            "已超過負荷，請稍後再試"
           else "boom"))
    ∧ ((handle_text_message cfgW gwFailImg memW "u" "/圖像 cat").2.getRecord "u").history = []
    ∧ (handle_audio_message gwOverAudio memW "u2" "a.m4a").1
      = some (OutMsg.text
          (if pyStartsWith "That model is currently overloaded with other requests."
                "Incorrect API key provided" = true then
            "OpenAI API Key 有誤，請檢查配置。"
           else "That model is currently overloaded with other requests."))
    ∧ ((handle_audio_message gwOverAudio memW "u2" "a.m4a").2.getRecord "u2").history = []) :=
  C4_error_classification cfgW gwFailImg gwOverAudio memW memW "u" "u2" "/圖像 cat" "a.m4a"
    "boom" "That model is currently overloaded with other requests."
    (memW.append "u" "user" "cat") memW (by rfl) (by rfl)

/-- Counterexample to C5 as stated: the image command with an empty payload
does not recover locally — it appends an empty user turn to memory and
invokes the image-generation capability, replying with an Image message. -/
theorem C5_counterexample :
    (handle_text_message cfgW gwW memW "u" "/圖像").1
      = some (OutMsg.image "http://img.example/a.png" "http://img.example/a.png")
    ∧ ((handle_text_message cfgW gwW memW "u" "/圖像").2.getRecord "u").history
        = [⟨"user", ""⟩, ⟨"assistant", "http://img.example/a.png"⟩] := by
  decide

/-- Claim C5 (amended): the chat command with an empty payload recovers
locally with the guidance message and no memory mutation (the result does
not depend on the gateway at all); the image command has no empty-payload
guard — it appends the empty prompt as a user turn and invokes image
generation. -/
theorem C5_empty_payload (cfg : Config) (gw : Gateway) (mem : Memory)
    (uid raw rawImg url err : String)
    (hstart : pyStartsWith (pyStrip raw) "/GPT" = true)
    (hempty : pyStrip (pySlice (pyStrip raw) 4) = "")
    (hstartImg : pyStartsWith (pyStrip rawImg) "/圖像" = true)
    (hemptyImg : pyStrip (pySlice (pyStrip rawImg) 3) = "")
    (himg : gw.image_generations "" = (true, url, err)) :
    handle_text_message cfg gw mem uid raw
      = (some (OutMsg.text "請在 /GPT 指令後提供內容。"), mem)
    ∧ handle_text_message cfg gw mem uid rawImg
      = (some (OutMsg.image url url),
         (mem.append uid "user" "").append uid "assistant" url) := by
  constructor
  · have h1 : pyStartsWith (pyStrip raw) "/指令說明" = false :=
      pyStartsWith_false_of_startsWith hstart rfl rfl (by decide)
    have h2 : pyStartsWith (pyStrip raw) "/系統訊息" = false :=
      pyStartsWith_false_of_startsWith hstart rfl rfl (by decide)
    have h3 : pyStartsWith (pyStrip raw) "/清除" = false :=
      pyStartsWith_false_of_startsWith hstart rfl rfl (by decide)
    have h4 : pyStartsWith (pyStrip raw) "/圖像" = false :=
      pyStartsWith_false_of_startsWith hstart rfl rfl (by decide)
    have hany : commands.any (fun cmd => pyStartsWith (pyStrip raw) cmd) = true := by
      simp [commands, hstart]
    simp [handle_text_message, handleTextBody, hany, h1, h2, h3, h4, hstart, hempty]
  · have h1 : pyStartsWith (pyStrip rawImg) "/指令說明" = false :=
      pyStartsWith_false_of_startsWith hstartImg rfl rfl (by decide)
    have h2 : pyStartsWith (pyStrip rawImg) "/系統訊息" = false :=
      pyStartsWith_false_of_startsWith hstartImg rfl rfl (by decide)
    have h3 : pyStartsWith (pyStrip rawImg) "/清除" = false :=
      pyStartsWith_false_of_startsWith hstartImg rfl rfl (by decide)
    have hany : commands.any (fun cmd => pyStartsWith (pyStrip rawImg) cmd) = true := by
      simp [commands, hstartImg]
    simp [handle_text_message, handleTextBody, hany, h1, h2, h3, hstartImg, hemptyImg, himg]

/-- Witness for C5 (amended): `/GPT` with no payload recovers locally;
`/圖像` with no payload calls the capability and mutates memory. -/
theorem C5_witness :
    handle_text_message cfgW gwW memW "u" "/GPT"
      = (some (OutMsg.text "請在 /GPT 指令後提供內容。"), memW)
    ∧ handle_text_message cfgW gwW memW "u" "/圖像"
      = (some (OutMsg.image "http://img.example/a.png" "http://img.example/a.png"),
         (memW.append "u" "user" "").append "u" "assistant" "http://img.example/a.png") :=
  C5_empty_payload cfgW gwW memW "u" "/GPT" "/圖像" "http://img.example/a.png" ""
    (by decide) (by decide) (by decide) (by decide) (by rfl)

/-- Claim C10: a successful image command replies with an Image message
whose original-content URL and preview URL are the same returned URL, and
appends that same URL as the content of the assistant entry. -/
theorem C10_image_url (cfg : Config) (gw : Gateway) (mem : Memory)
    (uid raw p url err : String)
    (hstart : pyStartsWith (pyStrip raw) "/圖像" = true)
    (hp : pyStrip (pySlice (pyStrip raw) 3) = p)
    (himg : gw.image_generations p = (true, url, err)) :
    handle_text_message cfg gw mem uid raw
      = (some (OutMsg.image url url),
         (mem.append uid "user" p).append uid "assistant" url) := by
  have h1 : pyStartsWith (pyStrip raw) "/指令說明" = false :=
    pyStartsWith_false_of_startsWith hstart rfl rfl (by decide)
  have h2 : pyStartsWith (pyStrip raw) "/系統訊息" = false :=
    pyStartsWith_false_of_startsWith hstart rfl rfl (by decide)
  have h3 : pyStartsWith (pyStrip raw) "/清除" = false :=
    pyStartsWith_false_of_startsWith hstart rfl rfl (by decide)
  have hany : commands.any (fun cmd => pyStartsWith (pyStrip raw) cmd) = true := by
    simp [commands, hstart]
  simp [handle_text_message, handleTextBody, hany, h1, h2, h3, hstart, hp, himg]

/-- Claim C6: after `/系統訊息 你是一個翻譯員` followed by `/GPT 你好`, the
sequence passed to the chat-completion capability has the just-set system
message as its first entry, and a successful completion appends exactly one
user entry and one assistant entry to that user's history. -/
theorem C6_system_then_chat (cfg : Config) (gw : Gateway) (mem : Memory)
    (uid errStr : String) (resp : ChatResponse)
    (hurl : gw.get_url_from_text "你好" = none)
    (hchat : gw.chat_completions
        (((mem.changeSystemMessage uid "你是一個翻譯員").append uid "user" "你好").get uid)
        cfg.modelEngine = (true, resp, errStr)) :
    handle_text_message cfg gw mem uid "/系統訊息 你是一個翻譯員"
      = (some (OutMsg.text "輸入成功"), mem.changeSystemMessage uid "你是一個翻譯員")
    ∧ (((mem.changeSystemMessage uid "你是一個翻譯員").append uid "user" "你好").get uid).head?
      = some ⟨"system", "你是一個翻譯員"⟩
    ∧ handle_text_message cfg gw (mem.changeSystemMessage uid "你是一個翻譯員") uid "/GPT 你好"
      = (some (OutMsg.text resp.content),
         ((mem.changeSystemMessage uid "你是一個翻譯員").append uid "user" "你好").append uid
           resp.role resp.content) := by
  refine ⟨?_, ?_, ?_⟩
  · have hA0 : pyStartsWith (pyStrip "/系統訊息 你是一個翻譯員") "/指令說明" = false := by decide
    have hA1 : pyStartsWith (pyStrip "/系統訊息 你是一個翻譯員") "/系統訊息" = true := by decide
    have hA2 : pyStrip (pySlice (pyStrip "/系統訊息 你是一個翻譯員") 5) = "你是一個翻譯員" := by
      decide
    have hanyA : commands.any
        (fun cmd => pyStartsWith (pyStrip "/系統訊息 你是一個翻譯員") cmd) = true := by decide
    simp [handle_text_message, handleTextBody, hanyA, hA0, hA1, hA2]
  · simp [Memory.get, Memory.getRecord_append, Memory.getRecord_changeSystemMessage]
  · have hB0 : pyStartsWith (pyStrip "/GPT 你好") "/指令說明" = false := by decide
    have hB1 : pyStartsWith (pyStrip "/GPT 你好") "/系統訊息" = false := by decide
    have hB2 : pyStartsWith (pyStrip "/GPT 你好") "/清除" = false := by decide
    have hB3 : pyStartsWith (pyStrip "/GPT 你好") "/圖像" = false := by decide
    have hB4 : pyStartsWith (pyStrip "/GPT 你好") "/GPT" = true := by decide
    have hB5 : pyStrip (pySlice (pyStrip "/GPT 你好") 4) = "你好" := by decide
    have hBne : ("你好" = "") = False := by decide
    have hanyB : commands.any
        (fun cmd => pyStartsWith (pyStrip "/GPT 你好") cmd) = true := by decide
    simp [handle_text_message, handleTextBody, hanyB, hB0, hB1, hB2, hB3, hB4, hB5, hBne,
      hurl, hchat, get_role_and_content]

/-- Witness for C6: the scenario on a fresh user with the echo gateway. -/
theorem C6_witness :
    handle_text_message cfgW gwW memW "u" "/系統訊息 你是一個翻譯員"
      = (some (OutMsg.text "輸入成功"), memW.changeSystemMessage "u" "你是一個翻譯員")
    ∧ (((memW.changeSystemMessage "u" "你是一個翻譯員").append "u" "user" "你好").get "u").head?
      = some ⟨"system", "你是一個翻譯員"⟩
    ∧ handle_text_message cfgW gwW (memW.changeSystemMessage "u" "你是一個翻譯員") "u" "/GPT 你好"
      = (some (OutMsg.text (ChatResponse.mk "assistant" cfgW.modelEngine).content),
         ((memW.changeSystemMessage "u" "你是一個翻譯員").append "u" "user" "你好").append "u"
           (ChatResponse.mk "assistant" cfgW.modelEngine).role
           (ChatResponse.mk "assistant" cfgW.modelEngine).content) :=
  C6_system_then_chat cfgW gwW memW "u" "" (ChatResponse.mk "assistant" cfgW.modelEngine)
    (by rfl) (by rfl)

/-- Claim C7: a chat command whose prompt is detected as a generic
(non-video) URL for which content extraction yields zero chunks replies
with the content-extraction error message and clears the user's history. -/
theorem C7_content_extraction (cfg : Config) (gw : Gateway) (mem : Memory)
    (uid raw p url : String)
    (hstart : pyStartsWith (pyStrip raw) "/GPT" = true)
    (hp : pyStrip (pySlice (pyStrip raw) 4) = p)
    (hne : (p = "") = False)
    (hurl : gw.get_url_from_text p = some url)
    (hvid : gw.retrieve_video_id p = none)
    (hchunks : gw.get_content_from_url url = []) :
    handle_text_message cfg gw mem uid raw
      = (some (OutMsg.text "無法撈取此網站文字"), (mem.append uid "user" p).remove uid)
    ∧ ((handle_text_message cfg gw mem uid raw).2.getRecord uid).history = [] := by
  have h1 : pyStartsWith (pyStrip raw) "/指令說明" = false :=
    pyStartsWith_false_of_startsWith hstart rfl rfl (by decide)
  have h2 : pyStartsWith (pyStrip raw) "/系統訊息" = false :=
    pyStartsWith_false_of_startsWith hstart rfl rfl (by decide)
  have h3 : pyStartsWith (pyStrip raw) "/清除" = false :=
    pyStartsWith_false_of_startsWith hstart rfl rfl (by decide)
  have h4 : pyStartsWith (pyStrip raw) "/圖像" = false :=
    pyStartsWith_false_of_startsWith hstart rfl rfl (by decide)
  have hany : commands.any (fun cmd => pyStartsWith (pyStrip raw) cmd) = true := by
    simp [commands, hstart]
  have hc1 : pyStartsWith "無法撈取此網站文字" "Incorrect API key provided" = false := by decide
  have hc2 : pyStartsWith "無法撈取此網站文字"
      "That model is currently overloaded with other requests." = false := by decide
  have hmain : handle_text_message cfg gw mem uid raw
      = (some (OutMsg.text "無法撈取此網站文字"), (mem.append uid "user" p).remove uid) := by
    simp [handle_text_message, handleTextBody, hany, h1, h2, h3, h4, hstart, hp, hne,
      hurl, hvid, hchunks, hc1, hc2]
  refine ⟨hmain, ?_⟩
  rw [hmain]
  simp [Memory.getRecord_remove]

/-- Witness for C7: `/GPT https://example.com/article` with an extractor
returning zero chunks. -/
theorem C7_witness :
    handle_text_message cfgW gwWebEmpty memW "u" "/GPT https://example.com/article"
      = (some (OutMsg.text "無法撈取此網站文字"),
         (memW.append "u" "user" "https://example.com/article").remove "u")
    ∧ ((handle_text_message cfgW gwWebEmpty memW "u" "/GPT https://example.com/article").2.getRecord
        "u").history = [] :=
  C7_content_extraction cfgW gwWebEmpty memW "u" "/GPT https://example.com/article"
    "https://example.com/article" "https://example.com/article"
    (by decide) (by decide) (by decide) (by rfl) (by rfl) (by rfl)

/-- Claim C8: every audio event is handled by transcribing first (with the
fixed `whisper-1` model), appending the transcript as a user turn, running
a direct chat completion over the user's memory, and appending the
assistant turn; the result depends only on the transcription and
chat-completion capabilities, so the command table and the URL/video
detectors are bypassed regardless of the transcript's content. -/
theorem C8_audio_flow (gw gw' : Gateway) (mem : Memory) (uid path tx e₁ e₂ : String)
    (resp : ChatResponse)
    (htx : gw.audio_transcriptions path "whisper-1" = (true, tx, e₁))
    (hchat : gw.chat_completions ((mem.append uid "user" tx).get uid) "gpt-3.5-turbo"
        = (true, resp, e₂))
    (htx' : gw'.audio_transcriptions = gw.audio_transcriptions)
    (hchat' : gw'.chat_completions = gw.chat_completions) :
    handle_audio_message gw mem uid path
      = (some (OutMsg.text resp.content),
         (mem.append uid "user" tx).append uid resp.role resp.content)
    ∧ handle_audio_message gw' mem uid path = handle_audio_message gw mem uid path := by
  constructor
  · simp [handle_audio_message, handleAudioBody, htx, hchat, get_role_and_content]
  · simp [handle_audio_message, handleAudioBody, htx', hchat']

/-- Witness for C8: a concrete audio event; the second gateway differs in
its URL detector yet produces the identical result. -/
theorem C8_witness :
    handle_audio_message gwW memW "u" "a.m4a"
      = (some (OutMsg.text (ChatResponse.mk "assistant" "gpt-3.5-turbo").content),
         (memW.append "u" "user" "hello there").append "u"
           (ChatResponse.mk "assistant" "gpt-3.5-turbo").role
           (ChatResponse.mk "assistant" "gpt-3.5-turbo").content)
    ∧ handle_audio_message gwWebEcho memW "u" "a.m4a" = handle_audio_message gwW memW "u" "a.m4a" :=
  C8_audio_flow gwW gwWebEcho memW "u" "a.m4a" "hello there" "" ""
    (ChatResponse.mk "assistant" "gpt-3.5-turbo") (by rfl) (by rfl) (by rfl) (by rfl)

/-- Counterexample to C9 as stated: with a gateway whose chat completion
echoes the model identifier it receives, the audio path's completion runs
with the fixed `gpt-3.5-turbo`, not with the configured engine
(`cfgW.modelEngine = "my-engine"`). -/
theorem C9_counterexample :
    (handle_audio_message gwW memW "u" "a.m4a").1 = some (OutMsg.text "gpt-3.5-turbo")
    ∧ ¬ (handle_audio_message gwW memW "u" "a.m4a").1
        = some (OutMsg.text cfgW.modelEngine) := by
  decide

/-- Claim C9 (amended): the chat-completion and summarization calls of the
text handler (plain chat, website summarization, video-transcript
summarization) all use the configured `OPENAI_MODEL_ENGINE` value, made
observable by gateways that echo the engine they receive; the audio path's
chat completion instead uses the fixed `gpt-3.5-turbo`. -/
theorem C9_engine (cfg : Config) (mem : Memory) (uid : String) :
    (handle_text_message cfg gwW mem uid "/GPT 你好").1 = some (OutMsg.text cfg.modelEngine)
    ∧ (handle_text_message cfg gwWebEcho mem uid "/GPT 你好").1
        = some (OutMsg.text cfg.modelEngine)
    ∧ (handle_text_message cfg gwTube mem uid "/GPT 你好").1
        = some (OutMsg.text cfg.modelEngine)
    ∧ (handle_audio_message gwW mem uid "a.m4a").1 = some (OutMsg.text "gpt-3.5-turbo") := by
  have hB0 : pyStartsWith (pyStrip "/GPT 你好") "/指令說明" = false := by decide
  have hB1 : pyStartsWith (pyStrip "/GPT 你好") "/系統訊息" = false := by decide
  have hB2 : pyStartsWith (pyStrip "/GPT 你好") "/清除" = false := by decide
  have hB3 : pyStartsWith (pyStrip "/GPT 你好") "/圖像" = false := by decide
  have hB4 : pyStartsWith (pyStrip "/GPT 你好") "/GPT" = true := by decide
  have hB5 : pyStrip (pySlice (pyStrip "/GPT 你好") 4) = "你好" := by decide
  have hBne : ("你好" = "") = False := by decide
  have hanyB : commands.any
      (fun cmd => pyStartsWith (pyStrip "/GPT 你好") cmd) = true := by decide
  refine ⟨?_, ?_, ?_, ?_⟩
  · simp [handle_text_message, handleTextBody, hanyB, hB0, hB1, hB2, hB3, hB4, hB5, hBne,
      gwW, get_role_and_content]
  · simp [handle_text_message, handleTextBody, hanyB, hB0, hB1, hB2, hB3, hB4, hB5, hBne,
      gwWebEcho, gwW, get_role_and_content]
  · simp [handle_text_message, handleTextBody, hanyB, hB0, hB1, hB2, hB3, hB4, hB5, hBne,
      gwTube, gwW, get_role_and_content]
  · simp [handle_audio_message, handleAudioBody, gwW, get_role_and_content]

/-- Witness for C10: a concrete successful `/圖像 a red cat` command. -/
theorem C10_witness :
    handle_text_message cfgW gwW memW "u" "/圖像 a red cat"
      = (some (OutMsg.image "http://img.example/a.png" "http://img.example/a.png"),
         (memW.append "u" "user" "a red cat").append "u" "assistant"
           "http://img.example/a.png") :=
  C10_image_url cfgW gwW memW "u" "/圖像 a red cat" "a red cat" "http://img.example/a.png" ""
    (by decide) (by decide) (by rfl)

end LineBot
